import Mathlib

/-!
Shallow embedding of the `token_lottery` Solana/Anchor program
(`programs/token_lottery/src/lib.rs`) and proofs about its lottery
state machine.

Modelling conventions:
* `u64` values are natural numbers.  The Anchor workspace builds with
  `overflow-checks = true` (the standard Anchor workspace `Cargo.toml`,
  which sits outside this crate's source file), so a `u64` addition or
  subtraction that leaves the range panics and aborts the transaction;
  the two places where this can happen (`total_tickets += 1` in
  `buy_ticket` and `clock.slot - 1` in `commit_randomness`) are modelled
  by explicit `abort` branches.
* `Pubkey`s are abstract identities, modelled as natural numbers;
  `Pubkey::default()` is `0`.
* Each instruction is a function from the current `TokenLottery` account
  and its non-account inputs (clock slot, signer key, randomness account)
  to a transaction outcome.  The Solana runtime rolls every account back
  when an instruction returns an error or panics, so an outcome is either
  `ok` with the updated account, `err` with a program error, or `abort`
  for a Rust panic; `err` and `abort` leave the account unchanged.
* The Switchboard randomness account is modelled by its parsed view:
  whether `RandomnessAccountData::parse` succeeds, its `seed_slot`, and
  `get_value` as a function from the clock slot to an optional byte
  string (`Ok` / `Err` of the SDK call).  A failed `parse` hits the
  `.unwrap()` in the source and panics.
-/

namespace TokenLotteryProgram

/-- The program's error codes (`pub enum ErrorCode`, lib.rs:521-535). -/
inductive ErrorCode where
  | LotteryNotOpen
  | Unauthorized
  | RandomnessAlreadyRevealed
  | LotteryNotCompleted
  | WinnerChosen
  | RandomnessNotResolved
deriving DecidableEq, Repr

/-- One more than the largest `u64` value. -/
def U64CAP : Nat := 2 ^ 64

/-- The `TokenLottery` account (lib.rs:506-519).  Field names follow the
Rust struct; `authority` and `randomness_account` are `Pubkey`s modelled
as naturals. -/
structure TokenLottery where
  bump : Nat
  winner : Nat
  winner_chosen : Bool
  start_time : Nat
  end_time : Nat
  lottery_pot_amount : Nat
  total_tickets : Nat
  ticket_price : Nat
  authority : Nat
  randomness_account : Nat
deriving DecidableEq, Repr

/-- Parsed view of a Switchboard randomness account: its address (`key`),
whether `RandomnessAccountData::parse` succeeds on its data, the parsed
`seed_slot`, and `get_value` giving the revealed bytes at a clock slot
(`none` when the SDK returns an error, i.e. not yet resolvable). -/
structure RandomnessAccountData where
  key : Nat
  parseable : Bool
  seed_slot : Nat
  get_value : Nat → Option (List Nat)

/-- Outcome of running one instruction against the `TokenLottery`
account: success with the updated account, a program error, or a Rust
panic.  On `err` and `abort` the runtime rolls the account back. -/
inductive TxResult where
  | ok (s : TokenLottery)
  | err (e : ErrorCode)
  | abort
deriving DecidableEq, Repr

/-- The record written by `initialize_config` (lib.rs:34-45): all
counters zeroed, `winner_chosen = false`, authority set to the payer,
`randomness_account = Pubkey::default()`. -/
def initRecord (start_time end_time ticket_price payer bump : Nat) : TokenLottery :=
  { bump := bump
    winner := 0
    winner_chosen := false
    start_time := start_time
    end_time := end_time
    lottery_pot_amount := 0
    total_tickets := 0
    ticket_price := ticket_price
    authority := payer
    randomness_account := 0 }

/-- The `initialize_config` instruction (lib.rs:28-48): overwrites the
freshly created account with `initRecord` and unconditionally returns
`Ok(())` — it performs no validation of its arguments. -/
def initConfig (start_time end_time ticket_price payer bump : Nat) : TxResult :=
  .ok (initRecord start_time end_time ticket_price payer bump)

/-- The ticket index a successful `buy_ticket` labels its ticket with:
the pre-call `total_tickets`, used both in the ticket name
(lib.rs:142-150) and as the ticket mint's seed (lib.rs:406). -/
def ticketIndex (s : TokenLottery) : Nat :=
  s.total_tickets

/-- The `buy_ticket` instruction (lib.rs:140-260).  Guards: the slot must
satisfy `clock.slot >= start_time` and `clock.slot < end_time`, else
`LotteryNotOpen` (lib.rs:152-159).  The lamport transfer of
`ticket_price` and the mint/metadata CPIs touch only external accounts;
the only mutation of the `TokenLottery` account is
`total_tickets += 1` (lib.rs:257) — in particular `lottery_pot_amount`
is never written.  The checked increment panics at `u64::MAX`. -/
def buyTicket (s : TokenLottery) (slot : Nat) : TxResult :=
  if slot < s.start_time then .err .LotteryNotOpen
  else if s.end_time ≤ slot then .err .LotteryNotOpen
  else if s.total_tickets + 1 < U64CAP then
    .ok { s with total_tickets := s.total_tickets + 1 }
  else .abort

/-- The `commit_randomness` instruction (lib.rs:262-285).  Checks the
signer against `authority` (lib.rs:267-270), parses the randomness
account with `.unwrap()` (lib.rs:272-273, panic when unparseable),
requires `seed_slot == clock.slot - 1` (lib.rs:277-280, where the
checked `u64` subtraction panics at slot 0), then stores the randomness
account's address (lib.rs:282). -/
def commitRandomness (s : TokenLottery) (payer : Nat) (r : RandomnessAccountData)
    (slot : Nat) : TxResult :=
  if payer ≠ s.authority then .err .Unauthorized
  else if r.parseable = false then .abort
  else if slot = 0 then .abort
  else if r.seed_slot ≠ slot - 1 then .err .RandomnessAlreadyRevealed
  else .ok { s with randomness_account := r.key }

/-- The `reveal_winner` instruction (lib.rs:287-320).  In source order:
signer must be `authority` (lib.rs:291-294), the supplied randomness
account must be the stored one (lib.rs:296-299), `clock.slot >=
end_time` (lib.rs:301-304), `winner_chosen` must still be false
(lib.rs:306); then the randomness account is parsed with `.unwrap()`
(lib.rs:308-309) and resolved via `get_value(clock.slot)`
(lib.rs:311-313, `RandomnessNotResolved` on error).  The winner is
`reveal_random_value[0] as u64 % total_tickets` (lib.rs:315): indexing
an empty value panics, and `%` by `total_tickets = 0` panics
unconditionally in Rust.  On success `winner` and `winner_chosen` are
stored (lib.rs:316-317). -/
def revealWinner (s : TokenLottery) (payer : Nat) (r : RandomnessAccountData)
    (slot : Nat) : TxResult :=
  if payer ≠ s.authority then .err .Unauthorized
  else if r.key ≠ s.randomness_account then .err .RandomnessAlreadyRevealed
  else if slot < s.end_time then .err .LotteryNotCompleted
  else if s.winner_chosen then .err .WinnerChosen
  else if r.parseable = false then .abort
  else
    match r.get_value slot with
    | none => .err .RandomnessNotResolved
    | some bytes =>
      match bytes with
      | [] => .abort
      | b :: _ =>
        if s.total_tickets = 0 then .abort
        else .ok { s with winner := b % s.total_tickets, winner_chosen := true }

/-- One state-machine operation on the lottery account: a ticket sale, a
randomness commit, or a winner reveal, each with its per-call inputs. -/
inductive Op where
  | sell (slot : Nat)
  | commit (payer : Nat) (r : RandomnessAccountData) (slot : Nat)
  | reveal (payer : Nat) (r : RandomnessAccountData) (slot : Nat)

/-- The instruction an operation runs. -/
def stepOp (s : TokenLottery) (op : Op) : TxResult :=
  match op with
  | .sell slot => buyTicket s slot
  | .commit payer r slot => commitRandomness s payer r slot
  | .reveal payer r slot => revealWinner s payer r slot

/-- The account after an operation: the updated account on success, the
unchanged account when the instruction errors or panics (the runtime
rolls failed transactions back). -/
def applyOp (s : TokenLottery) (op : Op) : TokenLottery :=
  match stepOp s op with
  | .ok s2 => s2
  | .err _ => s
  | .abort => s

/-- The account after a sequence of operations. -/
def runOps (s : TokenLottery) (ops : List Op) : TokenLottery :=
  ops.foldl applyOp s

/-- Folding step for a run of `buy_ticket` calls: threads the account
and records each successful call's `ticketIndex`; any failure poisons
the run. -/
def sellStep (acc : Option (TokenLottery × List Nat)) (slot : Nat) :
    Option (TokenLottery × List Nat) :=
  match acc with
  | none => none
  | some (s, idxs) =>
    match buyTicket s slot with
    | .ok s2 => some (s2, idxs ++ [ticketIndex s])
    | _ => none

/-- Runs `buy_ticket` once per slot in the list, returning the final
account and the issued ticket indices when every call succeeds. -/
def runSells (s : TokenLottery) (slots : List Nat) : Option (TokenLottery × List Nat) :=
  slots.foldl sellStep (some (s, []))

/-- The spec's record invariant: a chosen winner is a valid ticket index
of a nonempty ticket set. -/
def WinnerInv (s : TokenLottery) : Prop :=
  s.winner_chosen = true → s.winner < s.total_tickets ∧ 0 < s.total_tickets

lemma buyTicket_ok {s : TokenLottery} {slot : Nat} {s2 : TokenLottery}
    (h : buyTicket s slot = .ok s2) :
    s2 = { s with total_tickets := s.total_tickets + 1 } ∧
      s.start_time ≤ slot ∧ slot < s.end_time := by
  unfold buyTicket at h
  split at h
  · cases h
  · split at h
    · cases h
    · split at h
      · cases h
        exact ⟨rfl, by omega, by omega⟩
      · cases h

lemma commitRandomness_ok {s : TokenLottery} {payer : Nat} {r : RandomnessAccountData}
    {slot : Nat} {s2 : TokenLottery}
    (h : commitRandomness s payer r slot = .ok s2) :
    s2 = { s with randomness_account := r.key } := by
  unfold commitRandomness at h
  split at h
  · cases h
  · split at h
    · cases h
    · split at h
      · cases h
      · split at h
        · cases h
        · cases h
          rfl

lemma revealWinner_ok {s : TokenLottery} {payer : Nat} {r : RandomnessAccountData}
    {slot : Nat} {s2 : TokenLottery}
    (h : revealWinner s payer r slot = .ok s2) :
    s.winner_chosen = false ∧ s.total_tickets ≠ 0 ∧
      ∃ b, s2 = { s with winner := b % s.total_tickets, winner_chosen := true } := by
  unfold revealWinner at h
  split at h
  · cases h
  split at h
  · cases h
  split at h
  · cases h
  split at h
  · cases h
  split at h
  · cases h
  split at h
  · cases h
  · rename_i bytes hbytes
    split at h
    · cases h
    · rename_i b rest
      split at h
      · cases h
      · cases h
        refine ⟨by simp_all, by assumption, b, rfl⟩

lemma applyOp_ok {s : TokenLottery} {op : Op} {s2 : TokenLottery}
    (h : stepOp s op = .ok s2) : applyOp s op = s2 := by
  unfold applyOp
  rw [h]

lemma applyOp_err {s : TokenLottery} {op : Op} {e : ErrorCode}
    (h : stepOp s op = .err e) : applyOp s op = s := by
  unfold applyOp
  rw [h]

lemma applyOp_abort {s : TokenLottery} {op : Op}
    (h : stepOp s op = .abort) : applyOp s op = s := by
  unfold applyOp
  rw [h]

lemma winnerInv_applyOp {s : TokenLottery} (op : Op) (h : WinnerInv s) :
    WinnerInv (applyOp s op) := by
  cases hres : stepOp s op with
  | err e => rw [applyOp_err hres]; exact h
  | abort => rw [applyOp_abort hres]; exact h
  | ok s2 =>
    rw [applyOp_ok hres]
    cases op with
    | sell slot =>
      obtain ⟨hs2, -, -⟩ := buyTicket_ok (hres : buyTicket s slot = .ok s2)
      subst hs2
      intro hc
      dsimp only at hc ⊢
      have := h hc
      omega
    | commit payer r slot =>
      have hs2 := commitRandomness_ok (hres : commitRandomness s payer r slot = .ok s2)
      subst hs2
      intro hc
      dsimp only at hc ⊢
      exact h hc
    | reveal payer r slot =>
      obtain ⟨-, ht, b, hs2⟩ := revealWinner_ok (hres : revealWinner s payer r slot = .ok s2)
      subst hs2
      intro _
      dsimp only
      exact ⟨Nat.mod_lt _ (Nat.pos_of_ne_zero ht), Nat.pos_of_ne_zero ht⟩

lemma winnerInv_runOps {s : TokenLottery} (ops : List Op) (h : WinnerInv s) :
    WinnerInv (runOps s ops) := by
  induction ops generalizing s with
  | nil => exact h
  | cons op ops ih =>
    exact ih (winnerInv_applyOp op h)

/-- C1: in the end-to-end scenario (price 10, five successful sales at
slots 100, 120, 150, 180, 199) the five tickets are issued with indices
0..4 and `total_tickets = 5`, but `lottery_pot_amount` is still `0`
rather than `5 * 10 = 50`: `buy_ticket` transfers the lamports but never
adds the payment to the `lottery_pot_amount` field. -/
theorem C1_pot_never_credited :
    runSells (initRecord 100 200 10 7 255) [100, 120, 150, 180, 199]
      = some ({ initRecord 100 200 10 7 255 with total_tickets := 5 }, [0, 1, 2, 3, 4])
    ∧ ({ initRecord 100 200 10 7 255 with total_tickets := 5 }).lottery_pot_amount = 0
    ∧ ({ initRecord 100 200 10 7 255 with total_tickets := 5 }).lottery_pot_amount
        ≠ 5 * ({ initRecord 100 200 10 7 255 with total_tickets := 5 }).ticket_price := by
  refine ⟨by decide, rfl, by decide⟩

/-- C2 counterexample: `initialize_config` with `start_time = 5 >=
end_time = 3` and `ticket_price = 0` succeeds (the instruction always
returns `Ok(())`), where the claim requires an `InvalidConfiguration`
failure — an error that does not even exist in the program's
`ErrorCode` enum. -/
theorem C2_counterexample :
    initConfig 5 3 0 7 255
      = TxResult.ok
          { bump := 255, winner := 0, winner_chosen := false, start_time := 5,
            end_time := 3, lottery_pot_amount := 0, total_tickets := 0,
            ticket_price := 0, authority := 7, randomness_account := 0 } := rfl

/-- C2 (amended): `initialize_config` validates nothing: for every
`(start_time, end_time, ticket_price)` — including `start_time >=
end_time` and `ticket_price = 0` — it succeeds and produces a record
with `total_tickets = 0`, `lottery_pot_amount = 0`, `winner_chosen =
false`, `winner = 0`, and `randomness_account` equal to the
`Pubkey::default()` sentinel. -/
theorem C2_initConfig_unvalidated (start_time end_time ticket_price payer bump : Nat) :
    initConfig start_time end_time ticket_price payer bump
      = TxResult.ok (initRecord start_time end_time ticket_price payer bump)
    ∧ (initRecord start_time end_time ticket_price payer bump).total_tickets = 0
    ∧ (initRecord start_time end_time ticket_price payer bump).lottery_pot_amount = 0
    ∧ (initRecord start_time end_time ticket_price payer bump).winner_chosen = false
    ∧ (initRecord start_time end_time ticket_price payer bump).winner = 0
    ∧ (initRecord start_time end_time ticket_price payer bump).randomness_account = 0 :=
  ⟨rfl, rfl, rfl, rfl, rfl, rfl⟩

/-- C3: every record reachable from initialization by any sequence of
`buy_ticket`, `commit_randomness` and `reveal_winner` operations
(failed calls roll back) satisfies the invariant: `winner_chosen = true`
implies `winner < total_tickets` and `total_tickets > 0`. -/
theorem C3_winner_invariant_reachable
    (start_time end_time ticket_price payer bump : Nat) (ops : List Op) :
    WinnerInv (runOps (initRecord start_time end_time ticket_price payer bump) ops) :=
  winnerInv_runOps ops (fun hc => nomatch hc)

lemma applyOp_preserves_final {s : TokenLottery} (op : Op)
    (h : s.winner_chosen = true) :
    (applyOp s op).winner = s.winner ∧ (applyOp s op).winner_chosen = true := by
  cases hres : stepOp s op with
  | err e => rw [applyOp_err hres]; exact ⟨rfl, h⟩
  | abort => rw [applyOp_abort hres]; exact ⟨rfl, h⟩
  | ok s2 =>
    rw [applyOp_ok hres]
    cases op with
    | sell slot =>
      obtain ⟨hs2, -, -⟩ := buyTicket_ok (hres : buyTicket s slot = .ok s2)
      subst hs2
      exact ⟨rfl, h⟩
    | commit payer r slot =>
      have hs2 := commitRandomness_ok (hres : commitRandomness s payer r slot = .ok s2)
      subst hs2
      exact ⟨rfl, h⟩
    | reveal payer r slot =>
      obtain ⟨hnc, -, -⟩ := revealWinner_ok (hres : revealWinner s payer r slot = .ok s2)
      simp [h] at hnc

lemma runOps_preserves_final {s : TokenLottery} (ops : List Op)
    (h : s.winner_chosen = true) :
    (runOps s ops).winner = s.winner ∧ (runOps s ops).winner_chosen = true := by
  induction ops generalizing s with
  | nil => exact ⟨rfl, h⟩
  | cons op ops ih =>
    have h1 := applyOp_preserves_final (s := s) op h
    have h2 := ih h1.2
    exact ⟨h2.1.trans h1.1, h2.2⟩

/-- A finalized lottery: the winner has been chosen. -/
def finishedState : TokenLottery :=
  { bump := 255, winner := 2, winner_chosen := true, start_time := 100, end_time := 200,
    lottery_pot_amount := 0, total_tickets := 5, ticket_price := 10, authority := 7,
    randomness_account := 42 }

/-- A lottery with a committed randomness account and no winner yet. -/
def committedState : TokenLottery :=
  { bump := 255, winner := 0, winner_chosen := false, start_time := 100, end_time := 200,
    lottery_pot_amount := 0, total_tickets := 5, ticket_price := 10, authority := 7,
    randomness_account := 42 }

/-- A randomness account at address 42, seeded at slot 199, whose value
never resolves. -/
def unresolvedOracle : RandomnessAccountData :=
  { key := 42, parseable := true, seed_slot := 199, get_value := fun _ => none }

/-- A randomness account at address 43 (not the committed one). -/
def otherOracle : RandomnessAccountData :=
  { key := 43, parseable := true, seed_slot := 199, get_value := fun _ => none }

/-- A randomness account at address 42 seeded at slot 150 (stale). -/
def staleOracle : RandomnessAccountData :=
  { key := 42, parseable := true, seed_slot := 150, get_value := fun _ => none }

/-- A randomness account at address 42 whose value resolves to the byte
string `[157]` from slot 200 on. -/
def resolvedOracle : RandomnessAccountData :=
  { key := 42, parseable := true, seed_slot := 199,
    get_value := fun slot => if 200 ≤ slot then some [157] else none }

/-- C4 counterexample: with `winner_chosen = true`, a `reveal_winner`
call from a non-authority caller (key 8, authority is 7) fails with
`Unauthorized`, not `WinnerChosen`: the `winner_chosen` guard is checked
only fourth, so the claim's "any caller ... fails with WinnerChosen" is
false. -/
theorem C4_counterexample :
    finishedState.winner_chosen = true
    ∧ revealWinner finishedState 8 unresolvedOracle 300 = TxResult.err ErrorCode.Unauthorized
    ∧ revealWinner finishedState 8 unresolvedOracle 300 ≠ TxResult.err ErrorCode.WinnerChosen := by
  refine ⟨rfl, rfl, by decide⟩

/-- C4 (amended): once `winner_chosen = true`, every subsequent
`reveal_winner` call fails — it fails with `WinnerChosen` when the
caller is the authority, the supplied randomness account is the stored
one, and `current_time >= end_time`; with an earlier-ordered error
otherwise — and no later operation ever changes the stored `winner` (or
resets `winner_chosen`). -/
theorem C4_reveal_after_finalization (s : TokenLottery) (payer : Nat)
    (r : RandomnessAccountData) (slot : Nat) (ops : List Op)
    (h : s.winner_chosen = true) :
    (∀ s2, revealWinner s payer r slot ≠ TxResult.ok s2)
    ∧ (payer = s.authority → r.key = s.randomness_account → s.end_time ≤ slot →
        revealWinner s payer r slot = TxResult.err ErrorCode.WinnerChosen)
    ∧ (runOps s ops).winner = s.winner
    ∧ (runOps s ops).winner_chosen = true := by
  refine ⟨?_, ?_, (runOps_preserves_final ops h).1, (runOps_preserves_final ops h).2⟩
  · intro s2 hok
    obtain ⟨hnc, -, -⟩ := revealWinner_ok hok
    simp [h] at hnc
  · intro h1 h2 h3
    unfold revealWinner
    rw [if_neg (by simp [h1]), if_neg (by simp [h2]), if_neg (by omega), if_pos h]

/-- C4 witness: at the finalized state, an authority reveal with the
stored randomness account after the end slot fails `WinnerChosen`, and a
later ticket sale leaves `winner` untouched. -/
theorem C4_witness :
    revealWinner finishedState 7 unresolvedOracle 300 = TxResult.err ErrorCode.WinnerChosen
    ∧ (runOps finishedState [Op.sell 150]).winner = finishedState.winner
    ∧ (runOps finishedState [Op.sell 150]).winner_chosen = true :=
  ⟨(C4_reveal_after_finalization finishedState 7 unresolvedOracle 300 [Op.sell 150] rfl).2.1
      rfl rfl (by decide),
   (C4_reveal_after_finalization finishedState 7 unresolvedOracle 300 [Op.sell 150] rfl).2.2.1,
   (C4_reveal_after_finalization finishedState 7 unresolvedOracle 300 [Op.sell 150] rfl).2.2.2⟩

/-- C5: `reveal_winner` checks its preconditions in source order — wrong
caller gives `Unauthorized`; then a randomness account other than the
stored one gives `RandomnessAlreadyRevealed`; then a slot before
`end_time` gives `LotteryNotCompleted`; then an already chosen winner
gives `WinnerChosen`; and only past all four guards is the randomness
resolved, an unresolvable value giving `RandomnessNotResolved`.  Every
error outcome carries no updated record (the account is rolled back
unchanged). -/
theorem C5_reveal_check_order (s : TokenLottery) (payer : Nat)
    (r : RandomnessAccountData) (slot : Nat) :
    (payer ≠ s.authority → revealWinner s payer r slot = TxResult.err ErrorCode.Unauthorized)
    ∧ (payer = s.authority → r.key ≠ s.randomness_account →
        revealWinner s payer r slot = TxResult.err ErrorCode.RandomnessAlreadyRevealed)
    ∧ (payer = s.authority → r.key = s.randomness_account → slot < s.end_time →
        revealWinner s payer r slot = TxResult.err ErrorCode.LotteryNotCompleted)
    ∧ (payer = s.authority → r.key = s.randomness_account → s.end_time ≤ slot →
        s.winner_chosen = true →
        revealWinner s payer r slot = TxResult.err ErrorCode.WinnerChosen)
    ∧ (payer = s.authority → r.key = s.randomness_account → s.end_time ≤ slot →
        s.winner_chosen = false → r.parseable = true → r.get_value slot = none →
        revealWinner s payer r slot = TxResult.err ErrorCode.RandomnessNotResolved) := by
  refine ⟨?_, ?_, ?_, ?_, ?_⟩
  · intro h1
    unfold revealWinner
    rw [if_pos h1]
  · intro h1 h2
    unfold revealWinner
    rw [if_neg (by simp [h1]), if_pos h2]
  · intro h1 h2 h3
    unfold revealWinner
    rw [if_neg (by simp [h1]), if_neg (by simp [h2]), if_pos h3]
  · intro h1 h2 h3 h4
    unfold revealWinner
    rw [if_neg (by simp [h1]), if_neg (by simp [h2]), if_neg (by omega), if_pos h4]
  · intro h1 h2 h3 h4 h5 h6
    unfold revealWinner
    rw [if_neg (by simp [h1]), if_neg (by simp [h2]), if_neg (by omega),
      if_neg (by simp [h4]), if_neg (by simp [h5]), h6]

/-- C5 witness: each of the five error outcomes reached at a concrete
input, in guard order. -/
theorem C5_witness :
    revealWinner finishedState 8 unresolvedOracle 300 = TxResult.err ErrorCode.Unauthorized
    ∧ revealWinner finishedState 7 otherOracle 300
        = TxResult.err ErrorCode.RandomnessAlreadyRevealed
    ∧ revealWinner finishedState 7 unresolvedOracle 150
        = TxResult.err ErrorCode.LotteryNotCompleted
    ∧ revealWinner finishedState 7 unresolvedOracle 300 = TxResult.err ErrorCode.WinnerChosen
    ∧ revealWinner committedState 7 unresolvedOracle 300
        = TxResult.err ErrorCode.RandomnessNotResolved :=
  ⟨(C5_reveal_check_order finishedState 8 unresolvedOracle 300).1 (by decide),
   (C5_reveal_check_order finishedState 7 otherOracle 300).2.1 rfl (by decide),
   (C5_reveal_check_order finishedState 7 unresolvedOracle 150).2.2.1 rfl rfl (by decide),
   (C5_reveal_check_order finishedState 7 unresolvedOracle 300).2.2.2.1 rfl rfl (by decide) rfl,
   (C5_reveal_check_order committedState 7 unresolvedOracle 300).2.2.2.2 rfl rfl (by decide)
      rfl rfl rfl⟩

lemma commitRandomness_seed_ok {s : TokenLottery} {payer : Nat}
    {r : RandomnessAccountData} {slot : Nat} (hauth : payer = s.authority)
    (hp : r.parseable = true) (hslot : 1 ≤ slot) (hseed : r.seed_slot = slot - 1) :
    commitRandomness s payer r slot
      = TxResult.ok { s with randomness_account := r.key } := by
  unfold commitRandomness
  rw [if_neg (by simp [hauth]), if_neg (by simp [hp]), if_neg (by omega),
    if_neg (by simp [hseed])]

/-- A configured lottery inside its sale window, nothing committed yet. -/
def openState : TokenLottery :=
  { bump := 255, winner := 0, winner_chosen := false, start_time := 100, end_time := 200,
    lottery_pot_amount := 0, total_tickets := 0, ticket_price := 10, authority := 7,
    randomness_account := 0 }

/-- C6: for an authority caller with a parseable randomness account (and
a clock slot with a predecessor), `commit_randomness` succeeds — storing
the account's address into the record — exactly when the randomness was
seeded at the immediately preceding slot, and fails
`RandomnessAlreadyRevealed` whenever the seed slot is two or more slots
old or not yet in the past. -/
theorem C6_commit_timing (s : TokenLottery) (payer : Nat) (r : RandomnessAccountData)
    (slot : Nat) (hauth : payer = s.authority) (hp : r.parseable = true)
    (hslot : 1 ≤ slot) :
    (commitRandomness s payer r slot
        = TxResult.ok { s with randomness_account := r.key }
      ↔ r.seed_slot = slot - 1)
    ∧ (r.seed_slot + 2 ≤ slot ∨ slot ≤ r.seed_slot →
        commitRandomness s payer r slot
          = TxResult.err ErrorCode.RandomnessAlreadyRevealed) := by
  unfold commitRandomness
  rw [if_neg (by simp [hauth]), if_neg (by simp [hp]), if_neg (by omega)]
  constructor
  · constructor
    · intro h
      by_contra hne
      rw [if_pos hne] at h
      cases h
    · intro he
      rw [if_neg (by simp [he])]
  · intro hd
    rw [if_pos (by omega : r.seed_slot ≠ slot - 1)]

/-- C6 witness: at slot 200 a seed slot of 199 commits successfully and
stores address 42, while a seed slot of 150 fails
`RandomnessAlreadyRevealed`. -/
theorem C6_witness :
    commitRandomness openState 7 unresolvedOracle 200
      = TxResult.ok { openState with randomness_account := 42 }
    ∧ commitRandomness openState 7 staleOracle 200
      = TxResult.err ErrorCode.RandomnessAlreadyRevealed :=
  ⟨(C6_commit_timing openState 7 unresolvedOracle 200 rfl rfl (by decide)).1.mpr rfl,
   (C6_commit_timing openState 7 staleOracle 200 rfl rfl (by decide)).2
      (Or.inl (by decide))⟩

/-- C7: when all four `reveal_winner` guards pass and the oracle
resolves a byte string starting with `b`, the call succeeds and stores
`winner = b % total_tickets` (the first byte as an unsigned integer,
modulo the ticket count) and `winner_chosen = true`. -/
theorem C7_winner_from_first_byte (s : TokenLottery) (payer : Nat)
    (r : RandomnessAccountData) (slot : Nat) (b : Nat) (rest : List Nat)
    (hauth : payer = s.authority) (hkey : r.key = s.randomness_account)
    (htime : s.end_time ≤ slot) (hnc : s.winner_chosen = false)
    (hp : r.parseable = true) (hv : r.get_value slot = some (b :: rest))
    (ht : s.total_tickets ≠ 0) :
    revealWinner s payer r slot
      = TxResult.ok { s with winner := b % s.total_tickets, winner_chosen := true } := by
  unfold revealWinner
  rw [if_neg (by simp [hauth]), if_neg (by simp [hkey]), if_neg (by omega),
    if_neg (by simp [hnc]), if_neg (by simp [hp]), hv]
  dsimp only
  rw [if_neg ht]

/-- C7 witness: the spec's scenario — five tickets, revealed byte 157 at
slot 201 — yields `winner = 157 % 5 = 2`. -/
theorem C7_witness :
    revealWinner committedState 7 resolvedOracle 201
      = TxResult.ok { committedState with winner := 2, winner_chosen := true } :=
  C7_winner_from_first_byte committedState 7 resolvedOracle 201 157 []
    rfl rfl (by decide) rfl rfl (by decide) (by decide)

/-- C9: `commit_randomness` enforces no lifecycle or window
precondition: from any record — `winner_chosen = true` and slots before
`end_time` included — an authority call with a parseable account seeded
at the preceding slot succeeds and overwrites `randomness_account`. -/
theorem C9_commit_ignores_lifecycle (s : TokenLottery) (payer : Nat)
    (r : RandomnessAccountData) (slot : Nat) (hauth : payer = s.authority)
    (hp : r.parseable = true) (hslot : 1 ≤ slot)
    (hseed : r.seed_slot = slot - 1) :
    commitRandomness s payer r slot
      = TxResult.ok { s with randomness_account := r.key } :=
  commitRandomness_seed_ok hauth hp hslot hseed

/-- C9 witness: the finalized record (`winner_chosen = true`) accepts a
re-commit at slot 150, before its `end_time = 200`, replacing the stored
randomness address 42 with 43. -/
theorem C9_witness :
    finishedState.winner_chosen = true
    ∧ 150 < finishedState.end_time
    ∧ commitRandomness finishedState 7 { otherOracle with seed_slot := 149 } 150
        = TxResult.ok { finishedState with randomness_account := 43 } :=
  ⟨rfl, by decide,
   C9_commit_ignores_lifecycle finishedState 7 { otherOracle with seed_slot := 149 } 150
      rfl rfl (by decide) rfl⟩

/-- A lottery past its window with a committed randomness account and no
tickets sold. -/
def zeroTicketState : TokenLottery :=
  { bump := 255, winner := 0, winner_chosen := false, start_time := 100, end_time := 200,
    lottery_pot_amount := 0, total_tickets := 0, ticket_price := 10, authority := 7,
    randomness_account := 42 }

/-- C10: when all four guards pass, the account parses and the oracle
resolves a (nonempty) byte string but `total_tickets = 0`, the winner
computation `value[0] % total_tickets` divides by zero and the program
panics (transaction aborts) — no error from the program's taxonomy is
returned. -/
theorem C10_zero_tickets_panics (s : TokenLottery) (payer : Nat)
    (r : RandomnessAccountData) (slot : Nat) (b : Nat) (rest : List Nat)
    (hauth : payer = s.authority) (hkey : r.key = s.randomness_account)
    (htime : s.end_time ≤ slot) (hnc : s.winner_chosen = false)
    (hp : r.parseable = true) (hv : r.get_value slot = some (b :: rest))
    (ht : s.total_tickets = 0) :
    revealWinner s payer r slot = TxResult.abort := by
  unfold revealWinner
  rw [if_neg (by simp [hauth]), if_neg (by simp [hkey]), if_neg (by omega),
    if_neg (by simp [hnc]), if_neg (by simp [hp]), hv]
  dsimp only
  rw [if_pos ht]

/-- C10 witness: revealing at slot 201 with resolved byte 157 and zero
tickets sold aborts. -/
theorem C10_witness :
    revealWinner zeroTicketState 7 resolvedOracle 201 = TxResult.abort :=
  C10_zero_tickets_panics zeroTicketState 7 resolvedOracle 201 157 []
    rfl rfl (by decide) rfl rfl (by decide) rfl

lemma runSells_aux (slots : List Nat) (s : TokenLottery) (idxs : List Nat)
    (hw : ∀ t ∈ slots, s.start_time ≤ t ∧ t < s.end_time)
    (hlen : s.total_tickets + slots.length < U64CAP) :
    slots.foldl sellStep (some (s, idxs))
      = some ({ s with total_tickets := s.total_tickets + slots.length },
              idxs ++ List.range' s.total_tickets slots.length) := by
  induction slots generalizing s idxs with
  | nil => simp [List.range']
  | cons t ts ih =>
    have hw1 := hw t (by simp)
    have hbuy : buyTicket s t = .ok { s with total_tickets := s.total_tickets + 1 } := by
      unfold buyTicket
      rw [if_neg (by omega), if_neg (by omega),
        if_pos (by simp only [List.length_cons] at hlen; omega)]
    have hstep : sellStep (some (s, idxs)) t
        = some ({ s with total_tickets := s.total_tickets + 1 }, idxs ++ [ticketIndex s]) := by
      simp only [sellStep, hbuy]
    rw [List.foldl_cons, hstep,
      ih { s with total_tickets := s.total_tickets + 1 } (idxs ++ [ticketIndex s])
        (fun u hu => hw u (List.mem_cons_of_mem _ hu))
        (by dsimp only; simp only [List.length_cons] at hlen; omega)]
    dsimp only [ticketIndex]
    rw [List.length_cons, List.range'_succ,
      (by omega : s.total_tickets + 1 + ts.length = s.total_tickets + (ts.length + 1))]
    simp

/-- C8: starting from a fresh record, any run of `buy_ticket` calls at
slots inside the sale window all succeed (up to the physical `u64`
ticket bound); after `N` of them `total_tickets = N`, each call labels
its ticket with the pre-call `total_tickets`, and the issued ticket
indices are exactly `0, ..., N-1`, in order, with no duplicates and no
gaps. -/
theorem C8_sequential_ticket_indices
    (start_time end_time ticket_price payer bump : Nat) (slots : List Nat)
    (hw : ∀ t ∈ slots, start_time ≤ t ∧ t < end_time)
    (hlen : slots.length < U64CAP) :
    runSells (initRecord start_time end_time ticket_price payer bump) slots
      = some ({ initRecord start_time end_time ticket_price payer bump with
                  total_tickets := slots.length },
              List.range slots.length) := by
  unfold runSells
  rw [runSells_aux slots _ [] hw (by dsimp only [initRecord]; omega)]
  simp [initRecord, List.range_eq_range']

/-- C8 witness: three in-window sales from a fresh record yield
`total_tickets = 3` and ticket indices `[0, 1, 2]`. -/
theorem C8_witness :
    runSells (initRecord 100 200 10 7 255) [100, 120, 150]
      = some ({ initRecord 100 200 10 7 255 with total_tickets := 3 }, [0, 1, 2]) :=
  C8_sequential_ticket_indices 100 200 10 7 255 [100, 120, 150] (by decide) (by decide)

end TokenLotteryProgram
